import Mathlib

/-!
Shallow embedding of `src/csc.py` (class `BLECycling`), a MicroPython BLE
Cycling Speed and Cadence peripheral.

Modelling conventions:
* Connection handles are `Nat`.  The Python `set` `self._connections` is
  modelled as a duplicate-free `List Nat`; `set.add` is membership-guarded
  append and `set.remove` fails with `Except.error` when the element is
  absent (Python raises `KeyError` there).
* `time.ticks_ms` values wrap at `TICKS_PERIOD = 2 ^ 30` (the MicroPython
  tick period) and `time.ticks_diff` is the documented wraparound-safe
  signed difference.
* `struct.pack` in MicroPython silently truncates integers to the field
  width, so the `<I` and `<H` fields are reductions modulo `2 ^ 32` and
  `2 ^ 16`.
* `int(t * 1.024)` (lines 81 and 84) is modelled as the exact truncation
  `t * 1024 / 1000` in `Nat`; at every input appearing below the binary
  floating point product lies strictly between the same two integers, so
  the truncations agree.
* The external `gatts_notify` primitive may fail; it is modelled by a
  parameter `ok : Nat → Bool` telling which connection handles accept a
  notification.  The Python loop has no `try`, so a failing notify stops
  the loop and the exception escapes: `notifyAll` returns the deliveries
  made before the first failure together with a completion flag.
-/

namespace Cheapensor

/-- MicroPython tick period: `time.ticks_ms` wraps modulo `2 ^ 30`. -/
def TICKS_PERIOD : Nat := 2 ^ 30

/-- `time.ticks_diff(a, b)`: wraparound-safe signed difference of two tick
values, yielding a result in `[-TICKS_PERIOD/2, TICKS_PERIOD/2)`. -/
def ticks_diff (a b : Nat) : Int :=
  ((a : Int) - (b : Int) + (TICKS_PERIOD : Int) / 2) % (TICKS_PERIOD : Int)
    - (TICKS_PERIOD : Int) / 2

/-- `_CSC_FEATURES = _CSC_FEATURE_WHEEL_REV_DATA | _CSC_FEATURE_CRANK_REV_DATA`
(src/csc.py line 31), the constant `0x03` written into byte 0. -/
def CSC_FEATURES : Nat := 3

/-- The mutable state of a `BLECycling` instance (src/csc.py lines 47-58):
the connection registry, the advertising payload built once in `__init__`,
and the four cumulative/timestamp counters. -/
structure CSCState where
  connections : List Nat
  payload : List Nat
  cumulative_wheel_revolutions : Nat
  last_wheel_event_time : Nat
  cumulative_crank_revolutions : Nat
  last_crank_event_time : Nat
  deriving Repr, DecidableEq

/-- State right after `__init__`: empty registry, all counters zero
(src/csc.py lines 47, 55-58); the payload is the buffer built once by
`advertising_payload` (line 48), taken here as a parameter. -/
def initState (payload : List Nat) : CSCState :=
  ⟨[], payload, 0, 0, 0, 0⟩

/-- `struct.pack("<H", x)` under MicroPython semantics: two little-endian
bytes, silently truncating to 16 bits. -/
def pack16 (x : Nat) : List Nat :=
  [x % 256, x / 256 % 256]

/-- `struct.pack("<I", x)` under MicroPython semantics: four little-endian
bytes, silently truncating to 32 bits. -/
def pack32 (x : Nat) : List Nat :=
  [x % 256, x / 256 % 256, x / 65536 % 256, x / 16777216 % 256]

/-- `int(t * 1.024)` (src/csc.py lines 81, 84): millisecond-to-1/1024-second
conversion followed by truncation toward zero. -/
def scale1024 (t : Nat) : Nat :=
  t * 1024 / 1000

/-- The 11-byte `_measurement` buffer assembled by `send_measurement`
(src/csc.py lines 76-84). -/
def encodeMeasurement (s : CSCState) : List Nat :=
  [CSC_FEATURES]
    ++ pack32 s.cumulative_wheel_revolutions
    ++ pack16 (scale1024 s.last_wheel_event_time)
    ++ pack16 s.cumulative_crank_revolutions
    ++ pack16 (scale1024 s.last_crank_event_time)

/-- Byte access into an encoded buffer (0 past the end). -/
def get (l : List Nat) (i : Nat) : Nat :=
  l.getD i 0

/-- The notify loop of `send_measurement` (src/csc.py lines 85-87):
`gatts_notify` is attempted for each registered handle in iteration order;
there is no `try`, so the first failing call aborts the loop.  Returns the
`(handle, message)` pairs actually delivered and `true` iff the loop ran to
completion without an exception. -/
def notifyAll (ok : Nat → Bool) (msg : List Nat) :
    List Nat → List (Nat × List Nat) × Bool
  | [] => ([], true)
  | c :: rest =>
      if ok c then
        let r := notifyAll ok msg rest
        ((c, msg) :: r.1, r.2)
      else ([], false)

/-- `send_measurement` (src/csc.py lines 69-94): encode the current state
and fan the buffer out to every registered connection. -/
def send_measurement (ok : Nat → Bool) (s : CSCState) :
    List (Nat × List Nat) × Bool :=
  notifyAll ok (encodeMeasurement s) s.connections

/-- `wheel_event` (src/csc.py lines 96-103) at clock reading `ticks_ms`:
debounce against the last accepted wheel event, and on acceptance update
the timestamp, increment the counter and send the measurement.  Returns
the new state, the delivered notifications, and whether no exception
escaped. -/
def wheel_event (ok : Nat → Bool) (ticks_ms : Nat) (s : CSCState) :
    CSCState × List (Nat × List Nat) × Bool :=
  if ticks_diff ticks_ms s.last_wheel_event_time > 167 then
    let s2 := { s with
      last_wheel_event_time := ticks_ms,
      cumulative_wheel_revolutions := s.cumulative_wheel_revolutions + 1 }
    let r := send_measurement ok s2
    (s2, r.1, r.2)
  else
    (s, [], true)

/-- `crank_event` (src/csc.py lines 105-111), the crank twin of
`wheel_event`. -/
def crank_event (ok : Nat → Bool) (ticks_ms : Nat) (s : CSCState) :
    CSCState × List (Nat × List Nat) × Bool :=
  if ticks_diff ticks_ms s.last_crank_event_time > 167 then
    let s2 := { s with
      last_crank_event_time := ticks_ms,
      cumulative_crank_revolutions := s.cumulative_crank_revolutions + 1 }
    let r := send_measurement ok s2
    (s2, r.1, r.2)
  else
    (s, [], true)

/-- A call to `self._ble.gap_advertise(interval_us, adv_data=...)`
(src/csc.py line 136). -/
structure AdvCall where
  interval_us : Nat
  adv_data : List Nat
  deriving Repr, DecidableEq

/-- `_advertise` with its default argument (src/csc.py lines 135-136):
advertise the stored payload at 500000 microseconds. -/
def advertise (s : CSCState) : AdvCall :=
  ⟨500000, s.payload⟩

/-- Python `set.add`: insert if absent, unchanged if present. -/
def setAdd (h : Nat) (l : List Nat) : List Nat :=
  if h ∈ l then l else l ++ [h]

/-- Python `set.remove`: erase the element, or raise `KeyError`
(modelled as `Except.error ()`) when it is absent. -/
def setRemove (h : Nat) (l : List Nat) : Except Unit (List Nat) :=
  if h ∈ l then Except.ok (l.erase h) else Except.error ()

/-- The `_IRQ_CENTRAL_CONNECT` branch of `_irq` (src/csc.py lines 120-125):
add the handle to the registry and restart advertising. -/
def irq_central_connect (conn_handle : Nat) (s : CSCState) :
    CSCState × List AdvCall :=
  let s2 := { s with connections := setAdd conn_handle s.connections }
  (s2, [advertise s2])

/-- The `_IRQ_CENTRAL_DISCONNECT` branch of `_irq` (src/csc.py lines
126-131): `self._connections.remove(conn_handle)` raises `KeyError` when
the handle is unknown, in which case `_advertise` is never reached. -/
def irq_central_disconnect (conn_handle : Nat) (s : CSCState) :
    Except Unit (CSCState × List AdvCall) :=
  match setRemove conn_handle s.connections with
  | Except.ok l =>
      let s2 := { s with connections := l }
      Except.ok (s2, [advertise s2])
  | Except.error e => Except.error e

/-- The event sources actually wired up by the program: the speed-sensor
GPIO rising-edge interrupt registered in `__init__` (src/csc.py lines
62-64, handled by `speed_sensor_irq`, lines 113-116, which calls only
`wheel_event`) and the three BLE IRQ codes dispatched by `_irq` (lines
118-133).  No event source invokes `crank_event`. -/
inductive Ev where
  | speedSensorIrq (ticks_ms : Nat)
  | centralConnect (conn_handle : Nat)
  | centralDisconnect (conn_handle : Nat)
  | gattsIndicateDone (conn_handle value_handle status : Nat)
  deriving Repr, DecidableEq

/-- One dispatch of a hardware or BLE event.  An exception escaping a
MicroPython IRQ handler is reported by the scheduler and the program keeps
running, so the unknown-handle `KeyError` leaves the state as it was when
the exception was raised.  Returns the new state and the notifications
delivered during the event. -/
def stepEv (ok : Nat → Bool) (s : CSCState) : Ev → CSCState × List (Nat × List Nat)
  | Ev.speedSensorIrq t =>
      let r := wheel_event ok t s
      (r.1, r.2.1)
  | Ev.centralConnect h => ((irq_central_connect h s).1, [])
  | Ev.centralDisconnect h =>
      match irq_central_disconnect h s with
      | Except.ok r => (r.1, [])
      | Except.error _ => (s, [])
  | Ev.gattsIndicateDone _ _ _ => (s, [])

/-- Run a sequence of events from a state, accumulating every delivered
notification. -/
def runEv (ok : Nat → Bool) (s : CSCState) : List Ev → CSCState × List (Nat × List Nat)
  | [] => (s, [])
  | e :: es =>
      let r := stepEv ok s e
      let rest := runEv ok r.1 es
      (rest.1, r.2 ++ rest.2)

/-- The pure state transition of `wheel_event` (src/csc.py lines 99-101),
separated from the notification fan-out. -/
def wheelStep (ticks_ms : Nat) (s : CSCState) : CSCState :=
  if ticks_diff ticks_ms s.last_wheel_event_time > 167 then
    { s with
      last_wheel_event_time := ticks_ms,
      cumulative_wheel_revolutions := s.cumulative_wheel_revolutions + 1 }
  else s

/-- The pure state transition of `crank_event` (src/csc.py lines 107-109),
separated from the notification fan-out. -/
def crankStep (ticks_ms : Nat) (s : CSCState) : CSCState :=
  if ticks_diff ticks_ms s.last_crank_event_time > 167 then
    { s with
      last_crank_event_time := ticks_ms,
      cumulative_crank_revolutions := s.cumulative_crank_revolutions + 1 }
  else s

/-- Run `wheel_event` over a list of clock readings. -/
def runWheel (ok : Nat → Bool) (s : CSCState) : List Nat → CSCState
  | [] => s
  | t :: ts => runWheel ok (wheel_event ok t s).1 ts

/-- Number of raw wheel events accepted by the debounce policy along a
list of clock readings. -/
def acceptedWheel (s : CSCState) : List Nat → Nat
  | [] => 0
  | t :: ts =>
      (if ticks_diff t s.last_wheel_event_time > 167 then 1 else 0)
        + acceptedWheel (wheelStep t s) ts

/-- Run `crank_event` over a list of clock readings. -/
def runCrank (ok : Nat → Bool) (s : CSCState) : List Nat → CSCState
  | [] => s
  | t :: ts => runCrank ok (crank_event ok t s).1 ts

/-- Number of raw crank events accepted by the debounce policy along a
list of clock readings. -/
def acceptedCrank (s : CSCState) : List Nat → Nat
  | [] => 0
  | t :: ts =>
      (if ticks_diff t s.last_crank_event_time > 167 then 1 else 0)
        + acceptedCrank (crankStep t s) ts

/-- The spec describes the time fields as `round(t * 1.024)`; this is that
claimed rounding (ties cannot occur at the inputs compared below), kept
separate from `scale1024`, the truncation the code performs. -/
def roundScale (t : Nat) : Nat :=
  (t * 1024 + 500) / 1000

/-! ### Helper lemmas -/

/-- The notify loop delivers the message exactly to the longest prefix of
the registry on which `gatts_notify` succeeds, and completes iff every
call succeeds. -/
theorem notifyAll_eq (ok : Nat → Bool) (msg : List Nat) (l : List Nat) :
    notifyAll ok msg l = ((l.takeWhile ok).map (fun c => (c, msg)), l.all ok) := by
  induction l with
  | nil => rfl
  | cons c rest ih =>
      by_cases h : ok c = true
      · simp [notifyAll, h, List.takeWhile_cons, ih]
      · simp [notifyAll, h, List.takeWhile_cons]

/-- The state component of `wheel_event` is the pure debounce step. -/
theorem wheel_event_fst (ok : Nat → Bool) (t : Nat) (s : CSCState) :
    (wheel_event ok t s).1 = wheelStep t s := by
  unfold wheel_event wheelStep
  split <;> rfl

/-- The wheel counter moves by exactly the acceptance indicator. -/
theorem wheel_event_count (ok : Nat → Bool) (t : Nat) (s : CSCState) :
    ((wheel_event ok t s).1).cumulative_wheel_revolutions
      = s.cumulative_wheel_revolutions
        + (if ticks_diff t s.last_wheel_event_time > 167 then 1 else 0) := by
  unfold wheel_event
  split <;> simp

/-- Over a whole run, the wheel counter advances by the number of accepted
events. -/
theorem runWheel_count (ok : Nat → Bool) (ts : List Nat) :
    ∀ s : CSCState,
      (runWheel ok s ts).cumulative_wheel_revolutions
        = s.cumulative_wheel_revolutions + acceptedWheel s ts := by
  induction ts with
  | nil => intro s; rfl
  | cons t ts ih =>
      intro s
      rw [runWheel, acceptedWheel, ih, wheel_event_fst]
      by_cases h : ticks_diff t s.last_wheel_event_time > 167
      · simp [wheelStep, h]
        omega
      · simp [wheelStep, h]

/-- Running a concatenation of clock readings is running them in turn. -/
theorem runWheel_append (ok : Nat → Bool) (l1 l2 : List Nat) :
    ∀ s : CSCState, runWheel ok s (l1 ++ l2) = runWheel ok (runWheel ok s l1) l2 := by
  induction l1 with
  | nil => intro s; rfl
  | cons t ts ih => intro s; rw [List.cons_append, runWheel, runWheel, ih]

/-- One `wheel_event` never decreases the wheel counter. -/
theorem wheel_event_mono (ok : Nat → Bool) (t : Nat) (s : CSCState) :
    s.cumulative_wheel_revolutions
      ≤ ((wheel_event ok t s).1).cumulative_wheel_revolutions := by
  rw [wheel_event_count]
  split <;> omega

/-- When both crank fields are zero, bytes 7-10 of the encoded measurement
are zero. -/
theorem encode_drop7 (s : CSCState)
    (h1 : s.cumulative_crank_revolutions = 0)
    (h2 : s.last_crank_event_time = 0) :
    (encodeMeasurement s).drop 7 = [0, 0, 0, 0] := by
  simp [encodeMeasurement, pack16, pack32, scale1024, h1, h2, CSC_FEATURES]

/-- Every notification delivered by `send_measurement` carries the
encoding of the state it was called on. -/
theorem send_measurement_msgs (ok : Nat → Bool) (s : CSCState)
    (p : Nat × List Nat) (hp : p ∈ (send_measurement ok s).1) :
    p.2 = encodeMeasurement s := by
  have hp2 : p ∈ (s.connections.takeWhile ok).map
      (fun c => (c, encodeMeasurement s)) := by
    rw [send_measurement, notifyAll_eq] at hp
    exact hp
  simp only [List.mem_map] at hp2
  obtain ⟨c, hc, h⟩ := hp2
  rw [← h]

/-- Every notification delivered by `wheel_event` carries the encoding of
the post-event state. -/
theorem wheel_event_msgs (ok : Nat → Bool) (t : Nat) (s : CSCState)
    (p : Nat × List Nat) (hp : p ∈ (wheel_event ok t s).2.1) :
    p.2 = encodeMeasurement ((wheel_event ok t s).1) := by
  by_cases h : ticks_diff t s.last_wheel_event_time > 167
  · simp only [wheel_event, if_pos h] at hp ⊢
    exact send_measurement_msgs ok _ p hp
  · simp [wheel_event, if_neg h] at hp

/-- No reachable event source modifies the crank channel. -/
theorem stepEv_crank (ok : Nat → Bool) (s : CSCState) (e : Ev) :
    ((stepEv ok s e).1).cumulative_crank_revolutions
        = s.cumulative_crank_revolutions ∧
    ((stepEv ok s e).1).last_crank_event_time = s.last_crank_event_time := by
  cases e with
  | speedSensorIrq t =>
      simp only [stepEv, wheel_event_fst]
      unfold wheelStep
      split <;> simp
  | centralConnect h => simp [stepEv, irq_central_connect]
  | centralDisconnect h =>
      by_cases hm : h ∈ s.connections
      · simp [stepEv, irq_central_disconnect, setRemove, hm]
      · simp [stepEv, irq_central_disconnect, setRemove, hm]
  | gattsIndicateDone a b c => simp [stepEv]

/-- Every notification emitted by a step from a state with zeroed crank
fields has zero crank bytes. -/
theorem stepEv_msgs (ok : Nat → Bool) (s : CSCState) (e : Ev)
    (h1 : s.cumulative_crank_revolutions = 0)
    (h2 : s.last_crank_event_time = 0)
    (p : Nat × List Nat) (hp : p ∈ (stepEv ok s e).2) :
    p.2.drop 7 = [0, 0, 0, 0] := by
  cases e with
  | speedSensorIrq t =>
      simp only [stepEv] at hp
      rw [wheel_event_msgs ok t s p hp]
      apply encode_drop7
      · rw [wheel_event_fst]
        unfold wheelStep
        split <;> simp [h1]
      · rw [wheel_event_fst]
        unfold wheelStep
        split <;> simp [h2]
  | centralConnect h => simp [stepEv] at hp
  | centralDisconnect h =>
      by_cases hm : h ∈ s.connections
      · simp [stepEv, irq_central_disconnect, setRemove, hm] at hp
      · simp [stepEv, irq_central_disconnect, setRemove, hm] at hp
  | gattsIndicateDone a b c => simp [stepEv] at hp

/-- The state component of `crank_event` is the pure debounce step. -/
theorem crank_event_fst (ok : Nat → Bool) (t : Nat) (s : CSCState) :
    (crank_event ok t s).1 = crankStep t s := by
  unfold crank_event crankStep
  split <;> rfl

/-- The crank counter moves by exactly the acceptance indicator. -/
theorem crank_event_count (ok : Nat → Bool) (t : Nat) (s : CSCState) :
    ((crank_event ok t s).1).cumulative_crank_revolutions
      = s.cumulative_crank_revolutions
        + (if ticks_diff t s.last_crank_event_time > 167 then 1 else 0) := by
  unfold crank_event
  split <;> simp

/-- Over a whole run, the crank counter advances by the number of
accepted events. -/
theorem runCrank_count (ok : Nat → Bool) (ts : List Nat) :
    ∀ s : CSCState,
      (runCrank ok s ts).cumulative_crank_revolutions
        = s.cumulative_crank_revolutions + acceptedCrank s ts := by
  induction ts with
  | nil => intro s; rfl
  | cons t ts ih =>
      intro s
      rw [runCrank, acceptedCrank, ih, crank_event_fst]
      by_cases h : ticks_diff t s.last_crank_event_time > 167
      · simp [crankStep, h]
        omega
      · simp [crankStep, h]

/-- Running a concatenation of crank clock readings is running them in
turn. -/
theorem runCrank_append (ok : Nat → Bool) (l1 l2 : List Nat) :
    ∀ s : CSCState,
      runCrank ok s (l1 ++ l2) = runCrank ok (runCrank ok s l1) l2 := by
  induction l1 with
  | nil => intro s; rfl
  | cons t ts ih => intro s; rw [List.cons_append, runCrank, runCrank, ih]

/-- One `crank_event` never decreases the crank counter. -/
theorem crank_event_mono (ok : Nat → Bool) (t : Nat) (s : CSCState) :
    s.cumulative_crank_revolutions
      ≤ ((crank_event ok t s).1).cumulative_crank_revolutions := by
  rw [crank_event_count]
  split <;> omega

/-- The crank counter after a prefix of the run never exceeds the counter
after a longer prefix. -/
theorem runCrank_take_mono (ok : Nat → Bool) (ts : List Nat) (n : Nat)
    (s : CSCState) :
    (runCrank ok s (ts.take n)).cumulative_crank_revolutions
      ≤ (runCrank ok s (ts.take (n + 1))).cumulative_crank_revolutions := by
  rw [List.take_succ, runCrank_append]
  cases h : ts[n]? with
  | none => exact Nat.le_refl _
  | some t => exact crank_event_mono ok t _

/-- Crank fields are unchanged along any run of the wired-up event
sources. -/
theorem runEv_crank (ok : Nat → Bool) (es : List Ev) :
    ∀ s : CSCState,
      ((runEv ok s es).1).cumulative_crank_revolutions
          = s.cumulative_crank_revolutions ∧
      ((runEv ok s es).1).last_crank_event_time = s.last_crank_event_time := by
  induction es with
  | nil => intro s; exact ⟨rfl, rfl⟩
  | cons e es ih =>
      intro s
      have h1 := ih (stepEv ok s e).1
      have h2 := stepEv_crank ok s e
      simp only [runEv]
      exact ⟨h1.1.trans h2.1, h1.2.trans h2.2⟩

/-- Every notification along a run from zeroed crank fields has zero
crank bytes. -/
theorem runEv_msgs (ok : Nat → Bool) (es : List Ev) :
    ∀ s : CSCState, s.cumulative_crank_revolutions = 0 →
      s.last_crank_event_time = 0 →
      ∀ q : Nat × List Nat, q ∈ (runEv ok s es).2 →
        q.2.drop 7 = [0, 0, 0, 0] := by
  induction es with
  | nil => intro s _ _ q hq; simp [runEv] at hq
  | cons e es ih =>
      intro s h1 h2 q hq
      simp only [runEv, List.mem_append] at hq
      cases hq with
      | inl h => exact stepEv_msgs ok s e h1 h2 q h
      | inr h =>
          have hc := stepEv_crank ok s e
          exact ih (stepEv ok s e).1 (hc.1.trans h1) (hc.2.trans h2) q h

/-- No event handler ever rebuilds or modifies the advertising payload. -/
theorem stepEv_payload (ok : Nat → Bool) (s : CSCState) (e : Ev) :
    ((stepEv ok s e).1).payload = s.payload := by
  cases e with
  | speedSensorIrq t =>
      simp only [stepEv, wheel_event_fst]
      unfold wheelStep
      split <;> simp
  | centralConnect h => simp [stepEv, irq_central_connect]
  | centralDisconnect h =>
      by_cases hm : h ∈ s.connections
      · simp [stepEv, irq_central_disconnect, setRemove, hm]
      · simp [stepEv, irq_central_disconnect, setRemove, hm]
  | gattsIndicateDone a b c => simp [stepEv]

/-- The wheel counter after a prefix of the run never exceeds the counter
after a longer prefix. -/
theorem runWheel_take_mono (ok : Nat → Bool) (ts : List Nat) (n : Nat)
    (s : CSCState) :
    (runWheel ok s (ts.take n)).cumulative_wheel_revolutions
      ≤ (runWheel ok s (ts.take (n + 1))).cumulative_wheel_revolutions := by
  rw [List.take_succ, runWheel_append]
  cases h : ts[n]? with
  | none => exact Nat.le_refl _
  | some t => exact wheel_event_mono ok t _

/-- The encoded buffer is always exactly 11 bytes. -/
theorem encode_length (s : CSCState) : (encodeMeasurement s).length = 11 := by
  simp [encodeMeasurement, pack16, pack32]

/-- Byte 0 of the encoded buffer is the feature flags constant `0x03`. -/
theorem encode_byte0 (s : CSCState) : get (encodeMeasurement s) 0 = 3 := rfl

/-- Bytes 1-4 are the wheel count, little-endian, modulo `2 ^ 32`. -/
theorem encode_wheel_count (s : CSCState) :
    get (encodeMeasurement s) 1 + 256 * get (encodeMeasurement s) 2
      + 65536 * get (encodeMeasurement s) 3
      + 16777216 * get (encodeMeasurement s) 4
    = s.cumulative_wheel_revolutions % 2 ^ 32 := by
  simp only [encodeMeasurement, pack16, pack32, get, CSC_FEATURES,
    List.cons_append, List.nil_append, List.getD_cons_succ, List.getD_cons_zero]
  omega

/-- Bytes 5-6 are the truncated-scaled wheel event time modulo `2 ^ 16`. -/
theorem encode_wheel_time (s : CSCState) :
    get (encodeMeasurement s) 5 + 256 * get (encodeMeasurement s) 6
      = scale1024 s.last_wheel_event_time % 2 ^ 16 := by
  simp only [encodeMeasurement, pack16, pack32, get, CSC_FEATURES,
    List.cons_append, List.nil_append, List.getD_cons_succ, List.getD_cons_zero]
  omega

/-- Bytes 7-8 are the crank count modulo `2 ^ 16`. -/
theorem encode_crank_count (s : CSCState) :
    get (encodeMeasurement s) 7 + 256 * get (encodeMeasurement s) 8
      = s.cumulative_crank_revolutions % 2 ^ 16 := by
  simp only [encodeMeasurement, pack16, pack32, get, CSC_FEATURES,
    List.cons_append, List.nil_append, List.getD_cons_succ, List.getD_cons_zero]
  omega

/-- Bytes 9-10 are the truncated-scaled crank event time modulo `2 ^ 16`. -/
theorem encode_crank_time (s : CSCState) :
    get (encodeMeasurement s) 9 + 256 * get (encodeMeasurement s) 10
      = scale1024 s.last_crank_event_time % 2 ^ 16 := by
  simp only [encodeMeasurement, pack16, pack32, get, CSC_FEATURES,
    List.cons_append, List.nil_append, List.getD_cons_succ, List.getD_cons_zero]
  omega

/-- Debounce boundary: a gap of exactly 167 ms. -/
theorem td_167 : ticks_diff 1167 1000 = 167 := by decide

/-- Debounce boundary: a gap of exactly 168 ms. -/
theorem td_168 : ticks_diff 1168 1000 = 168 := by decide

/-- Debounce boundary across clock wraparound: 167 ms gap. -/
theorem td_wrap_167 : ticks_diff 67 (TICKS_PERIOD - 100) = 167 := by decide

/-- Debounce boundary across clock wraparound: 168 ms gap. -/
theorem td_wrap_168 : ticks_diff 68 (TICKS_PERIOD - 100) = 168 := by decide

/-! ### Claims -/

/-- C1 counterexample: a disconnect event for handle 5, which is not in
the (empty) registry, makes the handler raise `KeyError`
(`self._connections.remove`, src/csc.py line 128) instead of being a
no-op; processing does not continue normally. -/
theorem C1_counterexample :
    irq_central_disconnect 5 (initState []) = Except.error () := rfl

/-- C1 amended: a disconnect event for a handle absent from the registry
raises `KeyError` (it is not a silent no-op); a disconnect for a present
handle removes it and restarts advertising. -/
theorem C1_amended (h : Nat) (s : CSCState) :
    (h ∉ s.connections → irq_central_disconnect h s = Except.error ()) ∧
    (h ∈ s.connections →
      irq_central_disconnect h s
        = Except.ok ({ s with connections := s.connections.erase h },
            [AdvCall.mk 500000 s.payload])) := by
  constructor
  · intro hm
    simp [irq_central_disconnect, setRemove, hm]
  · intro hm
    simp [irq_central_disconnect, setRemove, hm, advertise]

/-- C1 witness: the amended statement at concrete inputs, discharging
both membership hypotheses. -/
theorem C1_witness :
    irq_central_disconnect 5 (initState [1]) = Except.error () ∧
    irq_central_disconnect 4 (CSCState.mk [4] [1] 0 0 0 0)
      = Except.ok (CSCState.mk [] [1] 0 0 0 0, [AdvCall.mk 500000 [1]]) := by
  constructor
  · exact (C1_amended 5 (initState [1])).1 (by decide)
  · have h := (C1_amended 4 (CSCState.mk [4] [1] 0 0 0 0)).2 (by decide)
    simpa using h

/-- C2 counterexample: with registered connections `[1, 2]`, when
`gatts_notify` fails on handle 1, connection 2 — registered and distinct
from the failing one — receives nothing, because the loop in
`send_measurement` (src/csc.py lines 85-87) has no exception handling
and the failure aborts the fan-out. -/
theorem C2_counterexample :
    2 ∈ (CSCState.mk [1, 2] [] 0 0 0 0).connections ∧
    (fun c => c == 2) 1 = false ∧
    (send_measurement (fun c => c == 2) (CSCState.mk [1, 2] [] 0 0 0 0)).1
      = [] := by
  exact ⟨by decide, rfl, rfl⟩

/-- C2 amended: a failing notify call is not caught: the fan-out loop
delivers the (identical) encoded measurement exactly to the connections
preceding the first failing handle in iteration order and then aborts,
the completion flag holding iff every notify succeeded; the cumulative
counters are updated before fan-out and are identical whatever the
notify outcomes. -/
theorem C2_amended (ok ok2 : Nat → Bool) (s : CSCState) (t : Nat) :
    (send_measurement ok s).1
        = (s.connections.takeWhile ok).map (fun c => (c, encodeMeasurement s)) ∧
    (send_measurement ok s).2 = s.connections.all ok ∧
    (wheel_event ok t s).1 = (wheel_event ok2 t s).1 ∧
    ((wheel_event ok t s).1).cumulative_wheel_revolutions
        = s.cumulative_wheel_revolutions
          + (if ticks_diff t s.last_wheel_event_time > 167 then 1 else 0) := by
  refine ⟨?_, ?_, ?_, wheel_event_count ok t s⟩
  · rw [send_measurement, notifyAll_eq]
  · rw [send_measurement, notifyAll_eq]
  · rw [wheel_event_fst, wheel_event_fst]

/-- C3 counterexample: for wheel event time 21 ms the code truncates
`21 * 1.024 = 21.504` to 21 (src/csc.py line 81 uses `int`, not `round`),
while the claimed `round` gives 22; so bytes 5-6 do not equal the
rounded value. -/
theorem C3_counterexample :
    get (encodeMeasurement (CSCState.mk [] [] 0 21 0 0)) 5
        + 256 * get (encodeMeasurement (CSCState.mk [] [] 0 21 0 0)) 6 = 21 ∧
    roundScale 21 = 22 ∧
    (21 : Nat) ≠ roundScale 21 % 2 ^ 16 := by decide

/-- C3 amended: the encoded measurement is exactly 11 bytes, little-endian:
byte 0 is `0x03`; bytes 1-4 the wheel count mod `2 ^ 32`; bytes 5-6 the
wheel event time scaled by 1.024 and truncated (not rounded), mod `2 ^ 16`;
bytes 7-8 the crank count mod `2 ^ 16`; bytes 9-10 the truncated scaled
crank event time mod `2 ^ 16`.  Wheel count `0x01020304` with wheel time
1000 ms encodes to a buffer starting `0x03, 0x04, 0x03, 0x02, 0x01` with
wheel time field 1024. -/
theorem C3_amended (s : CSCState) :
    (encodeMeasurement s).length = 11 ∧
    get (encodeMeasurement s) 0 = 3 ∧
    get (encodeMeasurement s) 1 + 256 * get (encodeMeasurement s) 2
      + 65536 * get (encodeMeasurement s) 3
      + 16777216 * get (encodeMeasurement s) 4
      = s.cumulative_wheel_revolutions % 2 ^ 32 ∧
    get (encodeMeasurement s) 5 + 256 * get (encodeMeasurement s) 6
      = scale1024 s.last_wheel_event_time % 2 ^ 16 ∧
    get (encodeMeasurement s) 7 + 256 * get (encodeMeasurement s) 8
      = s.cumulative_crank_revolutions % 2 ^ 16 ∧
    get (encodeMeasurement s) 9 + 256 * get (encodeMeasurement s) 10
      = scale1024 s.last_crank_event_time % 2 ^ 16 ∧
    (encodeMeasurement (CSCState.mk [] [] 16909060 1000 0 0)).take 5
      = [3, 4, 3, 2, 1] ∧
    get (encodeMeasurement (CSCState.mk [] [] 16909060 1000 0 0)) 5
      + 256 * get (encodeMeasurement (CSCState.mk [] [] 16909060 1000 0 0)) 6
      = 1024 :=
  ⟨encode_length s, encode_byte0 s, encode_wheel_count s, encode_wheel_time s,
   encode_crank_count s, encode_crank_time s, by decide, by decide⟩

/-- C4: a raw trigger is accepted (timestamp updated, counter bumped)
exactly when the wraparound-safe difference from the previous accepted
event exceeds 167 ms, on both channels; a 167 ms gap is rejected and a
168 ms gap accepted, also when the clock wraps between the two events. -/
theorem C4_debounce (ok : Nat → Bool) (t : Nat) (s : CSCState) :
    ((wheel_event ok t s).1
        = if ticks_diff t s.last_wheel_event_time > 167 then
            { s with
              last_wheel_event_time := t,
              cumulative_wheel_revolutions :=
                s.cumulative_wheel_revolutions + 1 }
          else s) ∧
    ((crank_event ok t s).1
        = if ticks_diff t s.last_crank_event_time > 167 then
            { s with
              last_crank_event_time := t,
              cumulative_crank_revolutions :=
                s.cumulative_crank_revolutions + 1 }
          else s) ∧
    ticks_diff 1167 1000 = 167 ∧
    (wheel_event ok 1167 (CSCState.mk [] [] 0 1000 0 0)).1
      = CSCState.mk [] [] 0 1000 0 0 ∧
    ticks_diff 1168 1000 = 168 ∧
    (wheel_event ok 1168 (CSCState.mk [] [] 0 1000 0 0)).1
      = CSCState.mk [] [] 1 1168 0 0 ∧
    ticks_diff 67 (TICKS_PERIOD - 100) = 167 ∧
    (wheel_event ok 67 (CSCState.mk [] [] 0 (TICKS_PERIOD - 100) 0 0)).1
      = CSCState.mk [] [] 0 (TICKS_PERIOD - 100) 0 0 ∧
    ticks_diff 68 (TICKS_PERIOD - 100) = 168 ∧
    (wheel_event ok 68 (CSCState.mk [] [] 0 (TICKS_PERIOD - 100) 0 0)).1
      = CSCState.mk [] [] 1 68 0 0 := by
  refine ⟨?_, ?_, td_167, ?_, td_168, ?_, td_wrap_167, ?_, td_wrap_168, ?_⟩
  · rw [wheel_event_fst]; unfold wheelStep; rfl
  · rw [crank_event_fst]; unfold crankStep; rfl
  · rw [wheel_event_fst]; decide
  · rw [wheel_event_fst]; decide
  · rw [wheel_event_fst]; decide
  · rw [wheel_event_fst]; decide

/-- C5: along any run of raw events on either channel from the initial
state, that channel's counter equals the number of accepted events
(hence also modulo `2 ^ 32`), is non-decreasing over the sequence, and
moves by exactly the acceptance indicator at each event. -/
theorem C5_counter (ok : Nat → Bool) (p : List Nat) (ts : List Nat) :
    (runWheel ok (initState p) ts).cumulative_wheel_revolutions
        = acceptedWheel (initState p) ts ∧
    (runWheel ok (initState p) ts).cumulative_wheel_revolutions % 2 ^ 32
        = acceptedWheel (initState p) ts % 2 ^ 32 ∧
    (∀ n : Nat,
      (runWheel ok (initState p) (ts.take n)).cumulative_wheel_revolutions
        ≤ (runWheel ok (initState p)
            (ts.take (n + 1))).cumulative_wheel_revolutions) ∧
    (∀ s : CSCState, ∀ t : Nat,
      ((wheel_event ok t s).1).cumulative_wheel_revolutions
        = s.cumulative_wheel_revolutions
          + (if ticks_diff t s.last_wheel_event_time > 167 then 1 else 0)) ∧
    (runCrank ok (initState p) ts).cumulative_crank_revolutions
        = acceptedCrank (initState p) ts ∧
    (runCrank ok (initState p) ts).cumulative_crank_revolutions % 2 ^ 32
        = acceptedCrank (initState p) ts % 2 ^ 32 ∧
    (∀ n : Nat,
      (runCrank ok (initState p) (ts.take n)).cumulative_crank_revolutions
        ≤ (runCrank ok (initState p)
            (ts.take (n + 1))).cumulative_crank_revolutions) ∧
    (∀ s : CSCState, ∀ t : Nat,
      ((crank_event ok t s).1).cumulative_crank_revolutions
        = s.cumulative_crank_revolutions
          + (if ticks_diff t s.last_crank_event_time > 167 then 1 else 0)) := by
  have hw : (runWheel ok (initState p) ts).cumulative_wheel_revolutions
      = acceptedWheel (initState p) ts := by
    have h := runWheel_count ok ts (initState p)
    simpa [initState] using h
  have hk : (runCrank ok (initState p) ts).cumulative_crank_revolutions
      = acceptedCrank (initState p) ts := by
    have h := runCrank_count ok ts (initState p)
    simpa [initState] using h
  exact ⟨hw, by rw [hw], fun n => runWheel_take_mono ok ts n (initState p),
    fun s t => wheel_event_count ok t s,
    hk, by rw [hk], fun n => runCrank_take_mono ok ts n (initState p),
    fun s t => crank_event_count ok t s⟩

/-- C6: encoding is total (always an 11-byte buffer, for every state) and
out-of-range values are reduced modulo the field width — `2 ^ 16` for the
crank count and both event-time fields, `2 ^ 32` for the wheel count —
never treated as an error; concretely, wheel count `2 ^ 32 + 5`, crank
count 65536 and crank time 64000 ms (scaled: 65536) all wrap to their
low bits. -/
theorem C6_truncation (s : CSCState) :
    (encodeMeasurement s).length = 11 ∧
    get (encodeMeasurement s) 7 + 256 * get (encodeMeasurement s) 8
      = s.cumulative_crank_revolutions % 2 ^ 16 ∧
    get (encodeMeasurement s) 9 + 256 * get (encodeMeasurement s) 10
      = scale1024 s.last_crank_event_time % 2 ^ 16 ∧
    get (encodeMeasurement s) 5 + 256 * get (encodeMeasurement s) 6
      = scale1024 s.last_wheel_event_time % 2 ^ 16 ∧
    get (encodeMeasurement s) 1 + 256 * get (encodeMeasurement s) 2
      + 65536 * get (encodeMeasurement s) 3
      + 16777216 * get (encodeMeasurement s) 4
      = s.cumulative_wheel_revolutions % 2 ^ 32 ∧
    scale1024 64000 = 65536 ∧
    encodeMeasurement (CSCState.mk [] [] (2 ^ 32 + 5) 0 65536 64000)
      = [3, 5, 0, 0, 0, 0, 0, 0, 0, 0, 0] :=
  ⟨encode_length s, encode_crank_count s, encode_crank_time s,
   encode_wheel_time s, encode_wheel_count s, by decide, by decide⟩

/-- C7: a raw trigger rejected by the debounce policy leaves the whole
state unchanged, delivers no notification to any connection, and raises
no error, on both channels. -/
theorem C7_rejected (ok : Nat → Bool) (t : Nat) (s : CSCState) :
    (¬ ticks_diff t s.last_wheel_event_time > 167 →
        wheel_event ok t s = (s, [], true)) ∧
    (¬ ticks_diff t s.last_crank_event_time > 167 →
        crank_event ok t s = (s, [], true)) := by
  constructor
  · intro h
    unfold wheel_event
    rw [if_neg h]
  · intro h
    unfold crank_event
    rw [if_neg h]

/-- C7 witness: at clock reading 0 from the initial state both channels
reject (gap 0 ms) and nothing happens. -/
theorem C7_witness :
    wheel_event (fun _ => true) 0 (initState []) = (initState [], [], true) ∧
    crank_event (fun _ => true) 0 (initState []) = (initState [], [], true) :=
  ⟨(C7_rejected (fun _ => true) 0 (initState [])).1 (by decide),
   (C7_rejected (fun _ => true) 0 (initState [])).2 (by decide)⟩

/-- C8 counterexample: a disconnect event for handle 7 while only handle 9
is registered raises `KeyError` before `_advertise` is reached, so
advertising is not restarted after this disconnect event. -/
theorem C8_counterexample :
    irq_central_disconnect 7 (CSCState.mk [9] [2] 0 0 0 0)
      = Except.error () := rfl

/-- C8 amended: after every connect event, and after every disconnect
event whose handle is in the registry, advertising is restarted with the
unchanged payload built at startup and the default interval of 500000
microseconds (a disconnect for an unknown handle instead raises before
advertising); no event handler ever modifies the payload; in particular
when the last connection disconnects the registry empties and advertising
restarts with the unchanged payload. -/
theorem C8_advertising (h : Nat) (s : CSCState) :
    (irq_central_connect h s).2 = [AdvCall.mk 500000 s.payload] ∧
    ((irq_central_connect h s).1).payload = s.payload ∧
    (∀ ok : Nat → Bool, ∀ e : Ev, ((stepEv ok s e).1).payload = s.payload) ∧
    (h ∈ s.connections →
      irq_central_disconnect h s
        = Except.ok ({ s with connections := s.connections.erase h },
            [AdvCall.mk 500000 s.payload])) ∧
    (h ∉ s.connections → irq_central_disconnect h s = Except.error ()) ∧
    (s.connections = [h] →
      irq_central_disconnect h s
        = Except.ok ({ s with connections := [] },
            [AdvCall.mk 500000 s.payload])) := by
  refine ⟨rfl, rfl, fun ok e => stepEv_payload ok s e, ?_, ?_, ?_⟩
  · intro hm
    simp [irq_central_disconnect, setRemove, hm, advertise]
  · intro hm
    simp [irq_central_disconnect, setRemove, hm]
  · intro hc
    simp [irq_central_disconnect, setRemove, hc, advertise]

/-- C8 witness: the amended statement at concrete inputs — the last
connection 4 disconnects and advertising restarts with the stored payload
`[7]`; an unknown handle 9 raises; a connect restarts advertising with
the same payload. -/
theorem C8_witness :
    irq_central_disconnect 4 (CSCState.mk [4] [7] 0 0 0 0)
      = Except.ok (CSCState.mk [] [7] 0 0 0 0, [AdvCall.mk 500000 [7]]) ∧
    irq_central_disconnect 9 (CSCState.mk [4] [7] 0 0 0 0)
      = Except.error () ∧
    (irq_central_connect 3 (CSCState.mk [] [7] 0 0 0 0)).2
      = [AdvCall.mk 500000 [7]] ∧
    irq_central_disconnect 4 (CSCState.mk [4, 6] [7] 0 0 0 0)
      = Except.ok (CSCState.mk [6] [7] 0 0 0 0, [AdvCall.mk 500000 [7]]) := by
  refine ⟨?_, ?_, ?_, ?_⟩
  · have h := (C8_advertising 4 (CSCState.mk [4] [7] 0 0 0 0)).2.2.2.2.2 rfl
    simpa using h
  · exact (C8_advertising 9 (CSCState.mk [4] [7] 0 0 0 0)).2.2.2.2.1 (by decide)
  · exact (C8_advertising 3 (CSCState.mk [] [7] 0 0 0 0)).1
  · have h := (C8_advertising 4 (CSCState.mk [4, 6] [7] 0 0 0 0)).2.2.2.1
      (by decide)
    simpa using h

/-- C9: registry membership has set semantics — connecting an
already-present handle leaves the registry unchanged, and for distinct
handles `a` and `b`, connecting `a` then `b` then disconnecting `a`
leaves the registry holding exactly `[b]`. -/
theorem C9_set_semantics (a b : Nat) (p : List Nat) (s : CSCState) :
    (a ∈ s.connections → (irq_central_connect a s).1 = s) ∧
    (a ≠ b →
      irq_central_disconnect a
          ((irq_central_connect b ((irq_central_connect a (initState p)).1)).1)
        = Except.ok ({ initState p with connections := [b] },
            [AdvCall.mk 500000 p])) := by
  constructor
  · intro hm
    simp [irq_central_connect, setAdd, hm]
  · intro hne
    have hba : ¬ b = a := fun hba => hne hba.symm
    simp [irq_central_connect, irq_central_disconnect, setAdd, setRemove,
      initState, advertise, hba]

/-- C9 witness: the statement at concrete handles 1 and 2, discharging
both hypotheses. -/
theorem C9_witness :
    (irq_central_connect 1 (CSCState.mk [1] [] 0 0 0 0)).1
      = CSCState.mk [1] [] 0 0 0 0 ∧
    irq_central_disconnect 1
        ((irq_central_connect 2 ((irq_central_connect 1 (initState [])).1)).1)
      = Except.ok ({ initState [] with connections := [2] },
          [AdvCall.mk 500000 []]) :=
  ⟨(C9_set_semantics 1 2 [] (CSCState.mk [1] [] 0 0 0 0)).1 (by decide),
   (C9_set_semantics 1 2 [] (CSCState.mk [1] [] 0 0 0 0)).2 (by decide)⟩

/-- C10: only the speed-sensor GPIO interrupt and the BLE callbacks are
registered as event sources, and none of them invokes `crank_event`; so
along every run from the initial state the crank counter and crank event
time stay 0 and bytes 7-10 of every transmitted measurement are zero. -/
theorem C10_crank_silent (ok : Nat → Bool) (p : List Nat) (es : List Ev) :
    ((runEv ok (initState p) es).1).cumulative_crank_revolutions = 0 ∧
    ((runEv ok (initState p) es).1).last_crank_event_time = 0 ∧
    (∀ q : Nat × List Nat, q ∈ (runEv ok (initState p) es).2 →
      q.2.drop 7 = [0, 0, 0, 0]) :=
  ⟨(runEv_crank ok es (initState p)).1,
   (runEv_crank ok es (initState p)).2,
   fun q hq => runEv_msgs ok es (initState p) rfl rfl q hq⟩

/-- C10 witness: a run where a central connects and a wheel interrupt
fires produces a notification whose crank bytes 7-10 are zero. -/
theorem C10_witness :
    (encodeMeasurement (CSCState.mk [1] [] 1 200 0 0)).drop 7
      = [0, 0, 0, 0] :=
  (C10_crank_silent (fun _ => true) []
      [Ev.centralConnect 1, Ev.speedSensorIrq 200]).2.2
    (1, encodeMeasurement (CSCState.mk [1] [] 1 200 0 0)) (by decide)

end Cheapensor
